import Mathlib

/-!
Verification of the Prime-Bank dashboard backend analytics core.

Shallow embedding of the aggregation, ranking, pagination and endpoint
logic of `dashboard_analytics.py`, `main.py` and `flask_dashboard_api.py`.
CSV rows become structures of optional strings (a missing column is
`none`, which models `row.get(key, default)`), Python numbers become
`Int` / `ℚ`, and fallible conversions return `Option`.
-/

set_option maxRecDepth 20000

namespace PrimeBank

/-! ### Python numeric conversions

`int(s)` and `float(s)` on CSV cell strings.  The embedding accepts an
optional sign followed by decimal digits (with an optional fractional
part for `float`); exponent forms and surrounding whitespace do not occur
in the data flow under verification and are left out.
-/

def digitVal (c : Char) : Nat := c.toNat - 48

def natFromDigits (cs : List Char) : Nat :=
  cs.foldl (fun a c => a * 10 + digitVal c) 0

def digitsToNat? (cs : List Char) : Option Nat :=
  if cs.isEmpty then none
  else if cs.all (fun c => c.isDigit) then some (natFromDigits cs) else none

def pyIntChars? (cs : List Char) : Option Int :=
  match cs with
  | '-' :: rest => (digitsToNat? rest).map (fun n => -(n : Int))
  | '+' :: rest => (digitsToNat? rest).map (fun n => (n : Int))
  | other => (digitsToNat? other).map (fun n => (n : Int))

/-- Python `int(s)` on a string: sign and decimal digits, else failure. -/
def pyInt? (s : String) : Option Int := pyIntChars? s.toList

def pyFloatBody? (cs : List Char) : Option ℚ :=
  let ip := cs.takeWhile (fun c => c.isDigit)
  let rest := cs.dropWhile (fun c => c.isDigit)
  match rest with
  | [] => if ip.isEmpty then none else some ((natFromDigits ip : ℚ))
  | '.' :: fp =>
    if fp.all (fun c => c.isDigit) && (!ip.isEmpty || !fp.isEmpty) then
      some ((natFromDigits ip : ℚ) + (natFromDigits fp : ℚ) / ((10 : ℚ) ^ fp.length))
    else none
  | _ => none

/-- Python `float(s)` on a string: sign, digits, optional fractional part. -/
def pyFloat? (s : String) : Option ℚ :=
  match s.toList with
  | '-' :: rest => (pyFloatBody? rest).map (fun q => -q)
  | '+' :: rest => pyFloatBody? rest
  | other => pyFloatBody? other

/-- `float(row.get(key, 0))`: a missing column yields `float(0) = 0`. -/
def pyFloatField : Option String → Option ℚ
  | none => some 0
  | some s => pyFloat? s

/-- `int(row.get(key, 0))`: a missing column yields `int(0) = 0`. -/
def pyIntField : Option String → Option Int
  | none => some 0
  | some s => pyInt? s

/-- `int(row.get(key, 0) or 0)`: a missing column or an empty string
(both falsy) yield 0 via the `or`. -/
def pyIntFieldOr : Option String → Option Int
  | none => some 0
  | some s => if s = "" then some 0 else pyInt? s

/-! ### Python rounding

`round` in Python rounds half to even (bankers rounding); the embedding
performs it on exact rationals. -/

def pyRound (q : ℚ) : Int :=
  let f := ⌊q⌋
  if q - f < 1/2 then f
  else if q - f > 1/2 then f + 1
  else if f % 2 = 0 then f else f + 1

/-- Python `round(x, 2)`. -/
def pyRound2 (q : ℚ) : ℚ := ((pyRound (q * 100) : ℚ)) / 100

/-- The percentage string `f"{round(count / total * 100)}%"`. -/
def pctStr (count n : Nat) : String :=
  toString (pyRound ((count : ℚ) / (n : ℚ) * 100)) ++ "%"

/-! ### CSV rows

One structure per CSV file.  Each field holds the raw cell text; `none`
models a column absent from the row (so that `row.get(key, default)`
falls back to its default). -/

structure PostRow where
  post_routing_id : Option String
  text : Option String
  author_name : Option String
  sentiment : Option String
  emotion : Option String
  category : Option String
  virality_score : Option String
  reaction_count : Option String
  comments_count : Option String
  share_count : Option String
  post_url : Option String
  post_id : Option String
  keywords : Option String
  topic_category : Option String
deriving DecidableEq

structure CommentRow where
  post_routing_id : Option String
  comment_text : Option String
  author_name : Option String
  likes_count : Option String
  comments_count : Option String
  post_url : Option String
  comment_id : Option String
  comment_url : Option String
  timestamp : Option String
  /-- Raw virality column of the source row; the code never reads it. -/
  virality_score : Option String
deriving DecidableEq

/-! ### Distribution aggregator
`DashboardAnalytics.get_post_categories_percentage` and
`DashboardAnalytics.get_sentiment_analysis`, applied to the list of rows
read from the posts CSV. -/

/-- Keys of the `categories` counting dict, in insertion order. -/
def catLabels : List String := ["inquiry", "suggestion", "complaint", "praise", "other"]

/-- The bucket a row falls into: its lower-cased category when that is a
key of the dict, else `other`. -/
def catBucket (row : PostRow) : String :=
  let c := (row.category.getD "").toLower
  if catLabels.contains c then c else "other"

def catCount (rows : List PostRow) (lab : String) : Nat :=
  rows.countP (fun r => catBucket r == lab)

/-- The dict key `suggestion` is renamed to `suggestions` in the output. -/
def catOutputKey (c : String) : String :=
  if c = "suggestion" then "suggestions" else c

structure CatResult where
  dist : List (String × String)
  total_number_of_posts : Nat
deriving DecidableEq

/-- `get_post_categories_percentage` on the parsed rows.  When the CSV
file is missing the code returns the same all-zero document as the
zero-row branch here. -/
def get_post_categories_percentage (rows : List PostRow) : CatResult :=
  if 0 < rows.length then
    ⟨catLabels.map (fun c => (catOutputKey c, pctStr (catCount rows c) rows.length)),
     rows.length⟩
  else
    ⟨catLabels.map (fun c => (catOutputKey c, "0%")), 0⟩

/-- Sentiment bucketing: `positive` and `negative` are counted exactly,
every other value falls into the `neutral` counter. -/
def sentBucket (row : PostRow) : String :=
  let s := (row.sentiment.getD "").toLower
  if s = "positive" then "positive"
  else if s = "negative" then "negative"
  else "neutral"

def sentCount (rows : List PostRow) (lab : String) : Nat :=
  rows.countP (fun r => sentBucket r == lab)

/-- Keys of the `emotions` counting dict, in insertion order. -/
def emoLabels : List String := ["neutral", "joy", "confusion", "frustration"]

def emoBucket (row : PostRow) : String :=
  let e := (row.emotion.getD "").toLower
  if emoLabels.contains e then e else "neutral"

def emoCount (rows : List PostRow) (lab : String) : Nat :=
  rows.countP (fun r => emoBucket r == lab)

/-- Sum of the virality scores; a cell that fails to parse is skipped
(`except: pass`), a missing cell contributes `float(0)`. -/
def total_virality (rows : List PostRow) : ℚ :=
  rows.foldl
    (fun acc r => match pyFloatField r.virality_score with
      | some v => acc + v
      | none => acc) 0

structure SentResult where
  bank_sentiment_score : Int
  engagement_weighted_sentiment : ℚ
  sentiment_distribution : List (String × String)
  emotion_distribution : List (String × String)
deriving DecidableEq

/-- `get_sentiment_analysis` on the parsed rows.  Note that with zero
rows the two distribution dicts stay empty (`sentiment_dist = {}` and
`emotion_dist = {}` are only filled under `if total_posts > 0`); the
all-`"0%"` document is produced only on the missing-file path. -/
def get_sentiment_analysis (rows : List PostRow) : SentResult :=
  let n := rows.length
  let pos := sentCount rows "positive"
  let neg := sentCount rows "negative"
  let sdist :=
    if 0 < n then
      [("positive", pctStr pos n), ("negative", pctStr neg n),
       ("neutral", pctStr (sentCount rows "neutral") n)]
    else []
  let edist :=
    if 0 < n then emoLabels.map (fun e => (e, pctStr (emoCount rows e) n)) else []
  ⟨(pos : Int) - (neg : Int), pyRound2 (total_virality rows), sdist, edist⟩

/-- The all-zero sentiment document returned when the CSV file is
missing (lines 188-195 of `dashboard_analytics.py`). -/
def sentimentMissingFile : SentResult :=
  ⟨0, 0,
   [("positive", "0%"), ("negative", "0%"), ("neutral", "0%")],
   [("neutral", "0%"), ("joy", "0%"), ("confusion", "0%"), ("frustration", "0%")]⟩

/-! ### Record normalizer

The numeric coercions of a post row, from `get_top_posts` lines 284-298
and `get_action_items` lines 336-345 (the two blocks are identical).
All four conversions sit in one `try`; the `except` arm overwrites all
four fields with 0, so a row either keeps all parsed values or loses
all of them. -/

structure PostNums where
  virality_score : ℚ
  reaction_count : Int
  comments_count : Int
  share_count : Int
deriving DecidableEq

def normalize_post_numbers (r : PostRow) : PostNums :=
  match pyFloatField r.virality_score, pyIntField r.reaction_count,
        pyIntField r.comments_count, pyIntField r.share_count with
  | some v, some rc, some cc, some sc => ⟨v, rc, cc, sc⟩
  | _, _, _, _ => ⟨0, 0, 0, 0⟩

/-- Row-by-row normalization of the posts CSV; each row is handled by
its own `try`, so one malformed row never touches the others. -/
def normalize_posts (rows : List PostRow) : List PostNums :=
  rows.map normalize_post_numbers

/-- The numeric coercions of a comment row, from `get_action_items`
lines 379-386: `likes_count + (comment_replies * 2)`, with the joint
`except` arm zeroing likes, replies and the score.  Returns
`(likes_count, comment_replies, virality_score)`. -/
def comment_numbers (r : CommentRow) : Int × Int × Int :=
  match pyIntFieldOr r.likes_count, pyIntFieldOr r.comments_count with
  | some l, some c => (l, c, l + c * 2)
  | _, _ => (0, 0, 0)

/-! ### Action items -/

/-- The `action_item` dict, fields in insertion order of the post
variant; the comment variant additionally sets `comment_url`.  The post
variant carries no `comment_url` key and an empty `timestamp`; both are
embedded as `""`. -/
structure ActionItem where
  type : String
  post_routing_id : String
  text : String
  author_name : String
  sentiment : String
  emotion : String
  category : String
  virality_score : ℚ
  reaction_count : Int
  comments_count : Int
  share_count : Int
  post_url : String
  post_id : String
  keywords : String
  topic_category : String
  comment_url : String
  timestamp : String
deriving DecidableEq

def mkPostItem (r : PostRow) : ActionItem :=
  let n := normalize_post_numbers r
  ⟨"post", r.post_routing_id.getD "", r.text.getD "", r.author_name.getD "",
   r.sentiment.getD "", r.emotion.getD "", r.category.getD "",
   n.virality_score, n.reaction_count, n.comments_count, n.share_count,
   r.post_url.getD "", r.post_id.getD "", r.keywords.getD "", r.topic_category.getD "",
   "", ""⟩

def mkCommentItem (r : CommentRow) : ActionItem :=
  let n := comment_numbers r
  ⟨"comment", r.post_routing_id.getD "", r.comment_text.getD "", r.author_name.getD "",
   "", "", "", ((n.2.2 : Int) : ℚ), n.1, n.2.1, 0,
   r.post_url.getD "", r.comment_id.getD "", "", "",
   r.comment_url.getD "", r.timestamp.getD ""⟩

/-! ### ISO-8601 timestamp parsing

`datetime.fromisoformat(ts.replace("Z", "+00:00")).timestamp()` on the
comment timestamps.  The embedding accepts the shape
`YYYY-MM-DDTHH:MM:SS` with an optional `+HH:MM` / `-HH:MM` offset and
yields whole epoch seconds; fractional seconds do not occur in the data
under verification, and an offset-free timestamp is taken as UTC. -/

def two? (a b : Char) : Option Nat :=
  if a.isDigit && b.isDigit then some (digitVal a * 10 + digitVal b) else none

def four? (a b c d : Char) : Option Nat :=
  if a.isDigit && b.isDigit && c.isDigit && d.isDigit then
    some (digitVal a * 1000 + digitVal b * 100 + digitVal c * 10 + digitVal d)
  else none

/-- Days from 1970-01-01 of a civil date (proleptic Gregorian). -/
def daysFromCivil (y : Int) (m d : Nat) : Int :=
  let y2 : Int := if m ≤ 2 then y - 1 else y
  let era : Int := Int.fdiv y2 400
  let yoe : Int := y2 - era * 400
  let mShift : Nat := if 2 < m then m - 3 else m + 9
  let doy : Nat := (153 * mShift + 2) / 5 + (d - 1)
  let doe : Int := yoe * 365 + Int.fdiv yoe 4 - Int.fdiv yoe 100 + (doy : Int)
  era * 146097 + doe - 719468

/-- The trailing UTC-offset part of the timestamp; an absent offset
contributes 0 seconds. -/
def isoOffset? : List Char → Option Int
  | [] => some 0
  | ['+', h1, h2, ':', m1, m2] =>
    match two? h1 h2, two? m1 m2 with
    | some h, some m => some ((h * 3600 + m * 60 : Nat))
    | _, _ => none
  | ['-', h1, h2, ':', m1, m2] =>
    match two? h1 h2, two? m1 m2 with
    | some h, some m => some (-((h * 3600 + m * 60 : Nat) : Int))
    | _, _ => none
  | _ => none

/-- Epoch seconds of an ISO-8601 timestamp, `none` when the string does
not parse (the `except` path of `comment_sort_key`). -/
def isoTs? (s : String) : Option Int :=
  match s.toList with
  | y1 :: y2 :: y3 :: y4 :: '-' :: mo1 :: mo2 :: '-' :: d1 :: d2 :: 'T' ::
    h1 :: h2 :: ':' :: mi1 :: mi2 :: ':' :: s1 :: s2 :: rest =>
    match four? y1 y2 y3 y4, two? mo1 mo2, two? d1 d2, two? h1 h2,
          two? mi1 mi2, two? s1 s2, isoOffset? rest with
    | some y, some mo, some da, some h, some mi, some se, some off =>
      if 1 ≤ mo && mo ≤ 12 && 1 ≤ da && da ≤ 31 && h ≤ 23 && mi ≤ 59 && se ≤ 59 then
        some (daysFromCivil (y : Int) mo da * 86400 + ((h * 3600 + mi * 60 + se : Nat) : Int) - off)
      else none
    | _, _, _, _, _, _, _ => none
  | _ => none

/-- `timestamp.replace("Z", "+00:00")`: every occurrence of the single
character `Z` becomes `+00:00`. -/
def replaceZ (s : String) : String :=
  String.mk (s.toList.foldr
    (fun c acc => if c = 'Z' then '+' :: '0' :: '0' :: ':' :: '0' :: '0' :: acc
      else c :: acc) [])

/-- The timestamp value `comment_sort_key` manages to parse: `none`
both for an empty timestamp (the `else` of `if timestamp:`) and for a
parse failure (the `except` arm). -/
def parsedTs? (c : ActionItem) : Option Int :=
  if c.timestamp ≠ "" then isoTs? (replaceZ c.timestamp) else none

/-- `comment_sort_key` (lines 419-430): ascending sort key
`(-score, -epoch_seconds)`, with second component 0 when the timestamp
is empty or fails to parse. -/
def comment_sort_key (c : ActionItem) : ℚ × ℚ :=
  match parsedTs? c with
  | some t => (-c.virality_score, -((t : Int) : ℚ))
  | none => (-c.virality_score, 0)

/-! ### Sorting

Python `list.sort` is an ascending stable sort; a stable sort by a total
preorder is unique, so it is embedded as `List.insertionSort` with the
corresponding relation (`reverse=True` keys become the flipped
comparison, which is exactly how CPython implements it: equal elements
keep their input order). -/

/-- `posts.sort(key=lambda x: x["virality_score"], reverse=True)`. -/
def postRel (a b : ActionItem) : Prop := b.virality_score ≤ a.virality_score

instance : DecidableRel postRel :=
  fun a b => (inferInstance : Decidable (b.virality_score ≤ a.virality_score))

instance : IsTotal ActionItem postRel :=
  ⟨fun a b => le_total b.virality_score a.virality_score⟩

instance : IsTrans ActionItem postRel :=
  ⟨fun _ _ _ hab hbc => le_trans hbc hab⟩

/-- Lexicographic comparison of Python 2-tuples. -/
def keyLe (p q : ℚ × ℚ) : Prop := p.1 < q.1 ∨ (p.1 = q.1 ∧ p.2 ≤ q.2)

theorem keyLe_total (p q : ℚ × ℚ) : keyLe p q ∨ keyLe q p := by
  rcases lt_trichotomy p.1 q.1 with h | h | h
  · exact Or.inl (Or.inl h)
  · rcases le_total p.2 q.2 with h2 | h2
    · exact Or.inl (Or.inr ⟨h, h2⟩)
    · exact Or.inr (Or.inr ⟨h.symm, h2⟩)
  · exact Or.inr (Or.inl h)

theorem keyLe_trans {p q r : ℚ × ℚ} (h1 : keyLe p q) (h2 : keyLe q r) : keyLe p r := by
  rcases h1 with h1 | ⟨e1, l1⟩
  · rcases h2 with h2 | ⟨e2, _⟩
    · exact Or.inl (h1.trans h2)
    · exact Or.inl (e2 ▸ h1)
  · rcases h2 with h2 | ⟨e2, l2⟩
    · exact Or.inl (e1 ▸ h2)
    · exact Or.inr ⟨e1.trans e2, l1.trans l2⟩

/-- `comments.sort(key=comment_sort_key)`. -/
def commentRel (a b : ActionItem) : Prop := keyLe (comment_sort_key a) (comment_sort_key b)

instance : DecidableRel keyLe :=
  fun p q => (inferInstance : Decidable (p.1 < q.1 ∨ (p.1 = q.1 ∧ p.2 ≤ q.2)))

instance : DecidableRel commentRel :=
  fun a b => (inferInstance : Decidable (keyLe (comment_sort_key a) (comment_sort_key b)))

instance : IsTotal ActionItem commentRel := ⟨fun _ _ => keyLe_total _ _⟩

instance : IsTrans ActionItem commentRel := ⟨fun _ _ _ h1 h2 => keyLe_trans h1 h2⟩

def sortPosts (l : List ActionItem) : List ActionItem := List.insertionSort postRel l

def sortComments (l : List ActionItem) : List ActionItem := List.insertionSort commentRel l

/-- Python `l[:n]` for a possibly negative `n`. -/
def pySliceTo {α : Type _} (l : List α) (n : Int) : List α :=
  if 0 ≤ n then l.take n.toNat
  else l.take (l.length - min l.length (-n).toNat)

/-- `DashboardAnalytics.get_action_items` (lines 308-437): build all
items, rank posts and comments independently, truncate each to its
limit, concatenate posts-then-comments. -/
def get_action_items (posts : List PostRow) (comments : List CommentRow)
    (posts_limit comments_limit : Int) : List ActionItem :=
  let top_posts := pySliceTo (sortPosts (posts.map mkPostItem)) posts_limit
  let top_comments := pySliceTo (sortComments (comments.map mkCommentItem)) comments_limit
  top_posts ++ top_comments

/-- The default limits: with no arguments and no environment overrides,
`posts_limit = comments_limit = 10`. -/
def get_action_items_default (posts : List PostRow) (comments : List CommentRow) :
    List ActionItem :=
  get_action_items posts comments 10 10

/-! ### Paginator

`get_full_data` of `app/main.py` (lines 463-538): the combined
posts-then-comments view, 50 items per page. -/

def pySlice {α : Type _} (l : List α) (s e : Nat) : List α :=
  (l.drop s).take (e - s)

structure FullDataPage (α : Type _) where
  items : List α
  current_page : Int
  total_pages : Nat
  number_of_pages : Nat
  items_per_page : Nat
  total_posts : Nat
  total_comments : Nat
deriving DecidableEq

/-- The handler body after `int(page_no)` succeeded; `page < 1` raises
and is reported as a 400 error.  Nat subtraction makes
`start_idx - posts_len` exactly the `max(0, start_idx - posts_len)` of
line 497, and in the `num_posts == 0` recomputation (lines 504-507) the
plain Python subtraction is nonnegative anyway since the posts slice is
empty exactly when `start_idx >= posts_len`. -/
def get_full_data {α : Type _} (posts comments : List α) (page : Int) :
    Except String (FullDataPage α) :=
  if page < 1 then Except.error "Page number must be positive"
  else
    let items_per_page : Nat := 50
    let start_idx : Nat := (page - 1).toNat * items_per_page
    let end_idx : Nat := start_idx + items_per_page
    let posts_len := posts.length
    let comments_len := comments.length
    let posts_slice := if start_idx < posts_len then pySlice posts start_idx end_idx else []
    let num_posts := posts_slice.length
    let comments_slice :=
      if num_posts < items_per_page then
        let remaining := items_per_page - num_posts
        let comments_start := start_idx - posts_len
        let comments_end := comments_start + remaining
        if comments_start < comments_len then pySlice comments comments_start comments_end
        else []
      else []
    let comments_slice :=
      if num_posts = 0 then
        let comments_start := start_idx - posts_len
        let comments_end := comments_start + items_per_page
        if comments_start < comments_len then pySlice comments comments_start comments_end
        else []
      else comments_slice
    let combined_items := posts_slice ++ comments_slice
    let total_items := posts_len + comments_len
    let total_pages := (total_items + items_per_page - 1) / items_per_page
    Except.ok ⟨combined_items, page, total_pages, total_pages, items_per_page,
               posts_len, comments_len⟩

/-! ### Read endpoints of `app/main.py` -/

/-- Truthiness of an optional query-string value. -/
def pyTruthyStr : Option String → Bool
  | none => false
  | some s => s ≠ ""

/-- Truthiness of `request.args.get(key, type=int)`. -/
def pyTruthyInt : Option Int → Bool
  | none => false
  | some n => n ≠ 0

/-- The `/api/action-items` handler (lines 68-101): equality filters on
category and sentiment, then `action_items[:limit]` applied only under
`if limit:`. -/
def get_action_items_route (action_items : List ActionItem)
    (category sentiment : Option String) (limit : Option Int) : List ActionItem :=
  let items1 :=
    if pyTruthyStr category then
      action_items.filter (fun i => i.category.toLower == (category.getD "").toLower)
    else action_items
  let items2 :=
    if pyTruthyStr sentiment then
      items1.filter (fun i => i.sentiment.toLower == (sentiment.getD "").toLower)
    else items1
  if pyTruthyInt limit then pySliceTo items2 (limit.getD 0) else items2

/-- The `/api/sentiment-analysis/top-posts` handler (lines 350-371):
`limit` defaults to 10 when absent or unparseable, and the cap is again
applied only under `if limit:`. -/
def get_top_posts_route {α : Type _} (top_posts : List α) (limit : Option Int) : List α :=
  let l := limit.getD 10
  if l ≠ 0 then pySliceTo top_posts l else top_posts

/-- Python `q in s` for the nonempty search query. -/
def strContains (s q : String) : Bool := 2 ≤ (s.splitOn q).length

/-- The `/api/search` handler (lines 402-433). -/
def search_posts (action_items : List ActionItem) (q : String) :
    Except String (List ActionItem) :=
  let query := q.toLower
  if query = "" then Except.error "Search query is required"
  else
    Except.ok (action_items.filter (fun i =>
      strContains i.text.toLower query || strContains i.keywords.toLower query ||
      strContains i.author_name.toLower query))

/-! ### The in-memory dashboard document and its GET handlers

`DASHBOARD_DATA` as loaded at startup.  The plain data sections are kept
as abstract key-value tables; `top_posts` is the nested
`sentiment_analysis["top_posts"]` list, lifted to a field of its own. -/

structure DashDoc where
  last_updated : String
  action_items : List ActionItem
  top_posts : List ActionItem
  ai_overview : List (String × String)
  bank_mentions : List (String × String)
  kpi : List (String × String)
  post_geolocation : List (String × String)
  scraping_status : List (String × String)
  sentiment_analysis : List (String × String)
deriving DecidableEq

/-- `DASHBOARD_DATA.copy()` of line 53: a shallow copy of an immutable
snapshot; the subsequent `response_data["last_updated"] = ...` mutates
only the copy and is embedded as a functional update of it. -/
def shallowCopy (d : DashDoc) : DashDoc := d

def withLastUpdated (d : DashDoc) (ts : String) : DashDoc :=
  ⟨ts, d.action_items, d.top_posts, d.ai_overview, d.bank_mentions, d.kpi,
   d.post_geolocation, d.scraping_status, d.sentiment_analysis⟩

inductive Resp where
  | doc (d : DashDoc)
  | items (l : List ActionItem)
  | item (i : ActionItem)
  | table (t : List (String × String))
  | count (n : Nat)
  | err (code : Nat)

inductive GetReq where
  | dashboard (ts : String)
  | actionItems (category sentiment : Option String) (limit : Option Int)
  | actionItemById (pid : String)
  | aiOverview
  | bankMentions
  | kpiReq
  | geolocation
  | scrapingStatus
  | sentimentAnalysisReq
  | topPosts (limit : Option Int)
  | summary
  | search (q : String)

/-- One GET request against the loaded document: the returned `DashDoc`
is the store after the request, the `Resp` the payload sent back. -/
def serve (d : DashDoc) (r : GetReq) : DashDoc × Resp :=
  match r with
  | .dashboard ts => (d, Resp.doc (withLastUpdated (shallowCopy d) ts))
  | .actionItems c s l => (d, Resp.items (get_action_items_route d.action_items c s l))
  | .actionItemById pid =>
    (d, match d.action_items.find? (fun i => i.post_id == pid) with
        | some it => Resp.item it
        | none => Resp.err 404)
  | .aiOverview => (d, Resp.table d.ai_overview)
  | .bankMentions => (d, Resp.table d.bank_mentions)
  | .kpiReq => (d, Resp.table d.kpi)
  | .geolocation => (d, Resp.table d.post_geolocation)
  | .scrapingStatus => (d, Resp.table d.scraping_status)
  | .sentimentAnalysisReq => (d, Resp.table d.sentiment_analysis)
  | .topPosts l => (d, Resp.items (get_top_posts_route d.top_posts l))
  | .summary => (d, Resp.count d.action_items.length)
  | .search q =>
    (d, match search_posts d.action_items q with
        | Except.ok rs => Resp.items rs
        | Except.error _ => Resp.err 400)

def serve_all (d : DashDoc) (rs : List GetReq) : DashDoc :=
  rs.foldl (fun s r => (serve s r).1) d

/-! ### The reanalyze endpoint

`flask_dashboard_api.py` lines 192-243.  JSON scalars are embedded as
`JVal`; `pyToInt?` is Python `int(x)` on such a value (floats truncate
toward zero, numeric strings convert, booleans give 0 or 1, `None`
raises `TypeError`). -/

inductive JVal where
  | jint (n : Int)
  | jfloat (q : ℚ)
  | jstr (s : String)
  | jbool (b : Bool)
  | jnull
deriving DecidableEq

/-- Truncation toward zero, the behavior of Python `int(float)`. -/
def ratTrunc (q : ℚ) : Int := Int.tdiv q.num q.den

def pyToInt? : JVal → Option Int
  | .jint n => some n
  | .jfloat q => some (ratTrunc q)
  | .jstr s => pyInt? s
  | .jbool b => some (if b then 1 else 0)
  | .jnull => none

structure ReanalyzeBody where
  content : Option JVal
  prime_bank_posts : Option JVal
  other_banks_posts : Option JVal

/-- The `/api/reanalyze` handler.  `Except.ok (p, o)` means the
background scraper thread was started with that configuration; every
`Except.error` path returns before `thread.start()`, so no run begins. -/
def reanalyze (running : Bool) (body : Option ReanalyzeBody) :
    Except (Nat × String) (Int × Int) :=
  match body with
  | none =>
    Except.error (400, "Invalid request. Expected \x7b\"content\": \"reanalyze\"\x7d")
  | some b =>
    if b.content ≠ some (JVal.jstr "reanalyze") then
      Except.error (400, "Invalid request. Expected \x7b\"content\": \"reanalyze\"\x7d")
    else if running then Except.error (400, "Scraper is already running")
    else
      match pyToInt? (b.prime_bank_posts.getD (JVal.jint 20)) with
      | none => Except.error (400, "prime_bank_posts and other_banks_posts must be integers")
      | some pv =>
        match pyToInt? (b.other_banks_posts.getD (JVal.jint 15)) with
        | none => Except.error (400, "prime_bank_posts and other_banks_posts must be integers")
        | some ov =>
          if pv < 1 ∨ 200 < pv then
            Except.error (400, "prime_bank_posts must be between 1 and 200")
          else if ov < 1 ∨ 200 < ov then
            Except.error (400, "other_banks_posts must be between 1 and 200")
          else Except.ok (pv, ov)

/-! ### The legacy full-data comment records

`flask_dashboard_api.py` lines 299-339: comment records of
`/api/full_data`.  The per-row conversions are not individually guarded
there, so a failing conversion raises out of the loop; the embedding
returns `none` for such a row. -/

structure FullComment where
  post_routing_id : String
  comment_text : String
  comment_author : String
  comment_time : String
  comment_likes : Int
  comment_replies : Int
  comment_url : String
  post_url : String
  comment_id : String
  virality_score : Int
deriving DecidableEq

def mkFullComment (r : CommentRow) : Option FullComment :=
  match pyIntFieldOr r.likes_count, pyIntFieldOr r.comments_count with
  | some likes, some cc =>
    some ⟨r.post_routing_id.getD "", r.comment_text.getD "", r.author_name.getD "",
          r.timestamp.getD "", likes, cc, r.comment_url.getD "", r.post_url.getD "",
          r.comment_id.getD "", likes + cc * 2⟩
  | _, _ => none

/-- The same comment row with the raw virality column replaced. -/
def setRawVirality (r : CommentRow) (v : Option String) : CommentRow :=
  ⟨r.post_routing_id, r.comment_text, r.author_name, r.likes_count, r.comments_count,
   r.post_url, r.comment_id, r.comment_url, r.timestamp, v⟩

/-! ## Claims -/

/-- **C4** (confirmed).  Every comment record, both in
`get_action_items` and in the `/api/full_data` loader, carries
`virality_score = likes_count + 2 * reply_count`, recomputed from those
two fields of the produced record; and the output is invariant under
any change of the raw `virality_score` column of the source row, so the
raw field is never read. -/
theorem C4_comment_virality_recomputed (r : CommentRow) :
    (mkCommentItem r).virality_score =
      ((mkCommentItem r).reaction_count : ℚ) + 2 * ((mkCommentItem r).comments_count : ℚ)
    ∧ (∀ v : Option String, mkCommentItem (setRawVirality r v) = mkCommentItem r)
    ∧ (∀ fc : FullComment, mkFullComment r = some fc →
        fc.virality_score = fc.comment_likes + 2 * fc.comment_replies)
    ∧ (∀ v : Option String, mkFullComment (setRawVirality r v) = mkFullComment r) := by
  refine ⟨?_, fun v => rfl, ?_, fun v => rfl⟩
  · cases h1 : pyIntFieldOr r.likes_count with
    | none => simp [mkCommentItem, comment_numbers, h1]
    | some l =>
      cases h2 : pyIntFieldOr r.comments_count with
      | none => simp [mkCommentItem, comment_numbers, h1, h2]
      | some c =>
        simp only [mkCommentItem, comment_numbers, h1, h2]
        push_cast
        ring
  · intro fc hfc
    cases h1 : pyIntFieldOr r.likes_count with
    | none => simp [mkFullComment, h1] at hfc
    | some l =>
      cases h2 : pyIntFieldOr r.comments_count with
      | none => simp [mkFullComment, h1, h2] at hfc
      | some c =>
        simp only [mkFullComment, h1, h2, Option.some.injEq] at hfc
        subst hfc
        simp
        ring

/-- Witness for C4 at a concrete comment row with 7 likes and 2
replies. -/
theorem C4_witness :
    (mkCommentItem ⟨none, some "w", none, some "7", some "2", none, none, none, none, some "999"⟩).virality_score =
      ((mkCommentItem ⟨none, some "w", none, some "7", some "2", none, none, none, none, some "999"⟩).reaction_count : ℚ) +
        2 * ((mkCommentItem ⟨none, some "w", none, some "7", some "2", none, none, none, none, some "999"⟩).comments_count : ℚ)
    ∧ (⟨"", "w", "", "", 7, 2, "", "", "", 11⟩ : FullComment).virality_score =
        (⟨"", "w", "", "", 7, 2, "", "", "", 11⟩ : FullComment).comment_likes +
          2 * (⟨"", "w", "", "", 7, 2, "", "", "", 11⟩ : FullComment).comment_replies :=
  ⟨(C4_comment_virality_recomputed _).1,
   (C4_comment_virality_recomputed
      ⟨none, some "w", none, some "7", some "2", none, none, none, none, some "999"⟩).2.2.1
      _ (by decide)⟩

/-- **C9** (confirmed).  A `limit` of 0 is falsy in Python, so the
result-count cap of `/api/action-items` is skipped exactly as when the
parameter is absent, returning the full filtered list; the
`/api/sentiment-analysis/top-posts` cap behaves the same way for 0
(while an absent limit there defaults to 10). -/
theorem C9_limit_zero_uncapped (items : List ActionItem)
    (category sentiment : Option String) :
    get_action_items_route items category sentiment (some 0) =
      get_action_items_route items category sentiment none
    ∧ get_action_items_route items none none (some 0) = items
    ∧ (∀ tops : List ActionItem, get_top_posts_route tops (some 0) = tops)
    ∧ (∀ tops : List ActionItem, get_top_posts_route tops none = tops.take 10) := by
  refine ⟨rfl, rfl, fun tops => rfl, fun tops => rfl⟩

/-- **C10** (confirmed).  Serving any sequence of GET requests leaves
the loaded dashboard document unchanged: the dashboard handler writes
`last_updated` onto a shallow copy only, and all other read handlers
build fresh lists. -/
theorem C10_reads_do_not_mutate (d : DashDoc) (rs : List GetReq) (ts : String) :
    serve_all d rs = d
    ∧ (∀ r : GetReq, (serve d r).1 = d)
    ∧ (serve d (GetReq.dashboard ts)).2 = Resp.doc (withLastUpdated (shallowCopy d) ts)
    ∧ (withLastUpdated (shallowCopy d) ts).action_items = d.action_items
    ∧ (withLastUpdated (shallowCopy d) ts).last_updated = ts := by
  have hstep : ∀ (s : DashDoc) (r : GetReq), (serve s r).1 = s := by
    intro s r
    cases r <;> rfl
  refine ⟨?_, fun r => hstep d r, rfl, rfl, rfl⟩
  induction rs generalizing d with
  | nil => rfl
  | cons r t ih =>
    show serve_all (serve d r).1 t = d
    rw [hstep d r, ih]

/-- **C6** (corrected).  The numeric coercions of one row share a
single `try`, so a failing field zeroes every numeric field of that row
(not just the failing one); rows are normalized independently, so a
malformed row never aborts the remaining rows. -/
theorem C6_rowwise_zero_substitution (r : PostRow) (rows : List PostRow) (i : Nat) :
    (∀ (v : ℚ) (rc cc sc : Int),
      pyFloatField r.virality_score = some v →
      pyIntField r.reaction_count = some rc →
      pyIntField r.comments_count = some cc →
      pyIntField r.share_count = some sc →
      normalize_post_numbers r = ⟨v, rc, cc, sc⟩)
    ∧ ((pyFloatField r.virality_score = none ∨ pyIntField r.reaction_count = none ∨
        pyIntField r.comments_count = none ∨ pyIntField r.share_count = none) →
      normalize_post_numbers r = ⟨0, 0, 0, 0⟩)
    ∧ (normalize_posts rows).length = rows.length
    ∧ (normalize_posts rows).get? i = (rows.get? i).map normalize_post_numbers := by
  refine ⟨?_, ?_, by simp [normalize_posts], by simp [normalize_posts]⟩
  · intro v rc cc sc h1 h2 h3 h4
    simp [normalize_post_numbers, h1, h2, h3, h4]
  · intro h
    rcases h with h | h | h | h <;>
      simp only [normalize_post_numbers, h] <;>
      cases pyFloatField r.virality_score <;>
      cases pyIntField r.reaction_count <;>
      cases pyIntField r.comments_count <;>
      cases pyIntField r.share_count <;>
      rfl

/-- Witness for C6 at a row whose four numeric cells all parse. -/
theorem C6_witness :
    pyFloatField (some "4") = some 4
    ∧ pyIntField (some "3") = some 3
    ∧ normalize_post_numbers
        ⟨none, none, none, none, none, none, some "4", some "3", some "3", some "3",
         none, none, none, none⟩ =
        ⟨4, 3, 3, 3⟩ :=
  ⟨by decide, by decide,
   (C6_rowwise_zero_substitution
      ⟨none, none, none, none, none, none, some "4", some "3", some "3", some "3",
       none, none, none, none⟩ [] 0).1
     4 3 3 3 (by decide) (by decide) (by decide) (by decide)⟩

/-- Counterexample to C6 as stated: in the row with cells
`virality_score = "5"`, `reaction_count = "abc"`, `comments_count = "2"`,
`share_count = "3"`, the fields `"5"`, `"2"` and `"3"` parse fine, yet
the one bad field zeroes all four outputs; per-field recovery would have
kept `virality_score = 5`. -/
theorem C6_counterexample :
    pyFloat? "5" = some 5 ∧ pyInt? "abc" = none ∧ pyInt? "2" = some 2 ∧ pyInt? "3" = some 3
    ∧ normalize_post_numbers
        ⟨none, none, none, none, none, none, some "5", some "abc", some "2", some "3",
         none, none, none, none⟩ =
        ⟨0, 0, 0, 0⟩
    ∧ (normalize_post_numbers
        ⟨none, none, none, none, none, none, some "5", some "abc", some "2", some "3",
         none, none, none, none⟩).virality_score ≠ 5 := by
  refine ⟨by decide, by decide, by decide, by decide, by decide, by decide⟩

/-- **C8** (corrected).  The reanalyze endpoint starts a run only when
both post counts convert through Python `int(...)` to a value in
[1, 200] — so a success fully validates both values, any failing or
out-of-range conversion yields a 400 error before the thread starts,
and a 400 is returned whenever a run is already active.  (Values that
`int(...)` can convert, such as floats or numeric strings, are accepted
rather than rejected; see the counterexample.) -/
theorem C8_reanalyze_validation (running : Bool) (b : ReanalyzeBody) (pv ov : Int) :
    (reanalyze running (some b) = Except.ok (pv, ov) →
      running = false ∧ b.content = some (JVal.jstr "reanalyze")
      ∧ pyToInt? (b.prime_bank_posts.getD (JVal.jint 20)) = some pv
      ∧ pyToInt? (b.other_banks_posts.getD (JVal.jint 15)) = some ov
      ∧ 1 ≤ pv ∧ pv ≤ 200 ∧ 1 ≤ ov ∧ ov ≤ 200)
    ∧ (∀ body : Option ReanalyzeBody, ∃ m, reanalyze true body = Except.error (400, m))
    ∧ (pyToInt? (b.prime_bank_posts.getD (JVal.jint 20)) = none →
        ∃ m, reanalyze running (some b) = Except.error (400, m))
    ∧ (∀ q : Int, pyToInt? (b.prime_bank_posts.getD (JVal.jint 20)) = some q →
        (q < 1 ∨ 200 < q) → ∃ m, reanalyze running (some b) = Except.error (400, m))
    ∧ (∀ q : Int, pyToInt? (b.other_banks_posts.getD (JVal.jint 15)) = some q →
        (q < 1 ∨ 200 < q) → ∃ m, reanalyze running (some b) = Except.error (400, m)) := by
  have hrun : ∀ body : Option ReanalyzeBody, ∃ m,
      reanalyze true body = Except.error (400, m) := by
    intro body
    cases body with
    | none => exact ⟨_, rfl⟩
    | some b2 =>
      by_cases hc2 : b2.content = some (JVal.jstr "reanalyze")
      · exact ⟨"Scraper is already running", by simp [reanalyze, hc2]⟩
      · exact ⟨"Invalid request. Expected \x7b\"content\": \"reanalyze\"\x7d",
          by simp [reanalyze, hc2]⟩
  by_cases hc : b.content = some (JVal.jstr "reanalyze")
  case neg =>
    have herr : reanalyze running (some b) =
        Except.error (400, "Invalid request. Expected \x7b\"content\": \"reanalyze\"\x7d") := by
      simp [reanalyze, hc]
    refine ⟨?_, hrun, fun _ => ⟨_, herr⟩, fun q _ _ => ⟨_, herr⟩, fun q _ _ => ⟨_, herr⟩⟩
    intro h
    rw [herr] at h
    exact Except.noConfusion h
  cases hr : running with
  | true =>
    subst hr
    have herr : reanalyze true (some b) =
        Except.error (400, "Scraper is already running") := by simp [reanalyze, hc]
    refine ⟨?_, hrun, fun _ => ⟨_, herr⟩, fun q _ _ => ⟨_, herr⟩, fun q _ _ => ⟨_, herr⟩⟩
    intro h
    rw [herr] at h
    exact Except.noConfusion h
  | false =>
    subst hr
    cases hp : pyToInt? (b.prime_bank_posts.getD (JVal.jint 20)) with
    | none =>
      have herr : reanalyze false (some b) =
          Except.error (400, "prime_bank_posts and other_banks_posts must be integers") := by
        simp [reanalyze, hc, hp]
      refine ⟨?_, hrun, fun _ => ⟨_, herr⟩, ?_, fun q _ _ => ⟨_, herr⟩⟩
      · intro h
        rw [herr] at h
        exact Except.noConfusion h
      · intro q hq _
        exact Option.noConfusion hq
    | some p =>
      cases ho : pyToInt? (b.other_banks_posts.getD (JVal.jint 15)) with
      | none =>
        have herr : reanalyze false (some b) =
            Except.error (400, "prime_bank_posts and other_banks_posts must be integers") := by
          simp [reanalyze, hc, hp, ho]
        refine ⟨?_, hrun, ?_, fun q _ _ => ⟨_, herr⟩, ?_⟩
        · intro h
          rw [herr] at h
          exact Except.noConfusion h
        · intro hn
          exact Option.noConfusion hn
        · intro q hq _
          exact Option.noConfusion hq
      | some o =>
        by_cases hp1 : p < 1 ∨ 200 < p
        · have herr : reanalyze false (some b) =
              Except.error (400, "prime_bank_posts must be between 1 and 200") := by
            simp [reanalyze, hc, hp, ho, hp1]
          refine ⟨?_, hrun, fun hn => Option.noConfusion hn,
            fun q _ _ => ⟨_, herr⟩, fun q _ _ => ⟨_, herr⟩⟩
          intro h
          rw [herr] at h
          exact Except.noConfusion h
        · by_cases ho1 : o < 1 ∨ 200 < o
          · have herr : reanalyze false (some b) =
                Except.error (400, "other_banks_posts must be between 1 and 200") := by
              simp [reanalyze, hc, hp, ho, hp1, ho1]
            refine ⟨?_, hrun, fun hn => Option.noConfusion hn, ?_,
              fun q _ _ => ⟨_, herr⟩⟩
            · intro h
              rw [herr] at h
              exact Except.noConfusion h
            · intro q hq hqr
              obtain rfl : p = q := Option.some.inj hq
              exact absurd hqr hp1
          · have hok : reanalyze false (some b) = Except.ok (p, o) := by
              simp [reanalyze, hc, hp, ho, hp1, ho1]
            push_neg at hp1 ho1
            refine ⟨?_, hrun, fun hn => Option.noConfusion hn, ?_, ?_⟩
            · intro h
              rw [hok] at h
              have h2 : (p, o) = (pv, ov) := Except.ok.inj h
              obtain ⟨rfl, rfl⟩ := Prod.mk.inj h2
              exact ⟨rfl, hc, rfl, rfl, hp1.1, hp1.2, ho1.1, ho1.2⟩
            · intro q hq hqr
              obtain rfl : p = q := Option.some.inj hq
              rcases hqr with h | h
              · exact absurd h (not_lt.mpr hp1.1)
              · exact absurd h (not_lt.mpr hp1.2)
            · intro q hq hqr
              obtain rfl : o = q := Option.some.inj hq
              rcases hqr with h | h
              · exact absurd h (not_lt.mpr ho1.1)
              · exact absurd h (not_lt.mpr ho1.2)

/-- Witness for C8: an in-range request is started with its values, an
out-of-range value yields a 400 error. -/
theorem C8_witness :
    pyToInt? ((some (JVal.jint 300)).getD (JVal.jint 20)) = some 300
    ∧ ((300 : Int) < 1 ∨ (200 : Int) < 300)
    ∧ (∃ m, reanalyze false
        (some ⟨some (JVal.jstr "reanalyze"), some (JVal.jint 300), none⟩) =
          Except.error (400, m)) :=
  ⟨by decide, by decide,
   (C8_reanalyze_validation false
      ⟨some (JVal.jstr "reanalyze"), some (JVal.jint 300), none⟩ 0 0).2.2.2.1
     300 (by decide) (by decide)⟩

/-- Counterexample to C8 as stated: the value `"50"` for
`prime_bank_posts` is not an integer, yet `int("50")` converts it, the
range check passes, and the run is started with `(50, 15)` instead of a
400 error. -/
theorem C8_counterexample :
    reanalyze false (some ⟨some (JVal.jstr "reanalyze"), some (JVal.jstr "50"), none⟩) =
      Except.ok (50, 15) := by rfl

/-- 120 distinct posts and 30 distinct comments for the pagination
scenario of the spec. -/
def pag_posts : List Nat := List.range 120

def pag_comments : List Nat := (List.range 30).map (fun i => 1000 + i)

/-- **C2** (corrected).  With `posts_len = 120`, `comments_len = 30`,
`P = 50`: page 1 is `posts[0:50]`, page 2 is `posts[50:100]`, page 3 is
`posts[100:120]` followed by ALL 30 comments (the remainder fill takes
`P - 20 = 30` comments, not 20), page 4 is empty (comments start index
`150 - 120 = 30` is past the comments list), and `total_pages = 3`. -/
theorem C2_pagination_exactness :
    get_full_data pag_posts pag_comments 1 =
      Except.ok ⟨pag_posts.take 50, 1, 3, 3, 50, 120, 30⟩
    ∧ get_full_data pag_posts pag_comments 2 =
      Except.ok ⟨(pag_posts.drop 50).take 50, 2, 3, 3, 50, 120, 30⟩
    ∧ get_full_data pag_posts pag_comments 3 =
      Except.ok ⟨pag_posts.drop 100 ++ pag_comments, 3, 3, 3, 50, 120, 30⟩
    ∧ get_full_data pag_posts pag_comments 4 =
      Except.ok ⟨[], 4, 3, 3, 50, 120, 30⟩ :=
  ⟨rfl, rfl, rfl, rfl⟩

/-- Counterexample to C2 as stated: page 3 is not
`posts[100:120] + comments[0:20]` (it contains all 30 comments) and
page 4 is not `comments[20:30]` (it is empty). -/
theorem C2_counterexample :
    (get_full_data pag_posts pag_comments 3).toOption.map FullDataPage.items ≠
      some (pag_posts.drop 100 ++ pag_comments.take 20)
    ∧ (get_full_data pag_posts pag_comments 4).toOption.map FullDataPage.items ≠
      some (pag_comments.drop 20) := by
  exact ⟨by decide, by decide⟩

theorem catBucket_mem (r : PostRow) : catBucket r ∈ catLabels := by
  simp only [catBucket]
  split
  · next h => simpa using h
  · simp [catLabels]

theorem catIndicator (r : PostRow) :
    (if catBucket r == "inquiry" then 1 else 0)
      + (if catBucket r == "suggestion" then 1 else 0)
      + (if catBucket r == "complaint" then 1 else 0)
      + (if catBucket r == "praise" then 1 else 0)
      + (if catBucket r == "other" then 1 else 0) = 1 := by
  have h : catBucket r ∈ catLabels := catBucket_mem r
  simp only [catLabels, List.mem_cons, List.not_mem_nil, or_false] at h
  rcases h with h | h | h | h | h <;> rw [h] <;> decide

theorem catCounts_sum (rows : List PostRow) :
    catCount rows "inquiry" + catCount rows "suggestion" + catCount rows "complaint"
      + catCount rows "praise" + catCount rows "other" = rows.length := by
  induction rows with
  | nil => rfl
  | cons r t ih =>
    simp only [catCount, List.countP_cons, List.length_cons] at *
    have h := catIndicator r
    omega

theorem sentIndicator (r : PostRow) :
    (if sentBucket r == "positive" then 1 else 0)
      + (if sentBucket r == "negative" then 1 else 0)
      + (if sentBucket r == "neutral" then 1 else 0) = 1 := by
  have h : sentBucket r = "positive" ∨ sentBucket r = "negative" ∨ sentBucket r = "neutral" := by
    simp only [sentBucket]
    split_ifs <;> simp
  rcases h with h | h | h <;> rw [h] <;> decide

theorem sentCounts_sum (rows : List PostRow) :
    sentCount rows "positive" + sentCount rows "negative" + sentCount rows "neutral"
      = rows.length := by
  induction rows with
  | nil => rfl
  | cons r t ih =>
    simp only [sentCount, List.countP_cons, List.length_cons] at *
    have h := sentIndicator r
    omega

theorem emoBucket_mem (r : PostRow) : emoBucket r ∈ emoLabels := by
  simp only [emoBucket]
  split
  · next h => simpa using h
  · simp [emoLabels]

theorem emoIndicator (r : PostRow) :
    (if emoBucket r == "neutral" then 1 else 0)
      + (if emoBucket r == "joy" then 1 else 0)
      + (if emoBucket r == "confusion" then 1 else 0)
      + (if emoBucket r == "frustration" then 1 else 0) = 1 := by
  have h : emoBucket r ∈ emoLabels := emoBucket_mem r
  simp only [emoLabels, List.mem_cons, List.not_mem_nil, or_false] at h
  rcases h with h | h | h | h <;> rw [h] <;> decide

theorem emoCounts_sum (rows : List PostRow) :
    emoCount rows "neutral" + emoCount rows "joy" + emoCount rows "confusion"
      + emoCount rows "frustration" = rows.length := by
  induction rows with
  | nil => rfl
  | cons r t ih =>
    simp only [emoCount, List.countP_cons, List.length_cons] at *
    have h := emoIndicator r
    omega

/-- **C1** (corrected).  For every list of N rows, the bucket counts of
each distribution sum to N (unknown values land in the fallback
bucket), and for N > 0 each label reports `round(count / N * 100)`
formatted as `"<int>%"`.  For N = 0, the post-categories aggregation
reports `"0%"` for every label with total 0, but the sentiment and
emotion distributions are returned as EMPTY mappings (no labels at
all); their summary counters are 0. -/
theorem C1_distribution_aggregation (rows : List PostRow) :
    (catCount rows "inquiry" + catCount rows "suggestion" + catCount rows "complaint"
      + catCount rows "praise" + catCount rows "other" = rows.length)
    ∧ (sentCount rows "positive" + sentCount rows "negative" + sentCount rows "neutral"
      = rows.length)
    ∧ (emoCount rows "neutral" + emoCount rows "joy" + emoCount rows "confusion"
      + emoCount rows "frustration" = rows.length)
    ∧ (0 < rows.length →
        (get_post_categories_percentage rows).dist =
          [("inquiry", pctStr (catCount rows "inquiry") rows.length),
           ("suggestions", pctStr (catCount rows "suggestion") rows.length),
           ("complaint", pctStr (catCount rows "complaint") rows.length),
           ("praise", pctStr (catCount rows "praise") rows.length),
           ("other", pctStr (catCount rows "other") rows.length)]
        ∧ (get_post_categories_percentage rows).total_number_of_posts = rows.length
        ∧ (get_sentiment_analysis rows).sentiment_distribution =
          [("positive", pctStr (sentCount rows "positive") rows.length),
           ("negative", pctStr (sentCount rows "negative") rows.length),
           ("neutral", pctStr (sentCount rows "neutral") rows.length)]
        ∧ (get_sentiment_analysis rows).emotion_distribution =
          [("neutral", pctStr (emoCount rows "neutral") rows.length),
           ("joy", pctStr (emoCount rows "joy") rows.length),
           ("confusion", pctStr (emoCount rows "confusion") rows.length),
           ("frustration", pctStr (emoCount rows "frustration") rows.length)])
    ∧ (rows.length = 0 →
        get_post_categories_percentage rows =
          ⟨[("inquiry", "0%"), ("suggestions", "0%"), ("complaint", "0%"),
            ("praise", "0%"), ("other", "0%")], 0⟩
        ∧ (get_sentiment_analysis rows).sentiment_distribution = []
        ∧ (get_sentiment_analysis rows).emotion_distribution = []
        ∧ (get_sentiment_analysis rows).bank_sentiment_score = 0
        ∧ (get_sentiment_analysis rows).engagement_weighted_sentiment = 0) := by
  refine ⟨catCounts_sum rows, sentCounts_sum rows, emoCounts_sum rows, ?_, ?_⟩
  · intro h
    refine ⟨?_, ?_, ?_, ?_⟩
    · show (get_post_categories_percentage rows).dist = _
      rw [get_post_categories_percentage, if_pos h]
      rfl
    · show (get_post_categories_percentage rows).total_number_of_posts = _
      rw [get_post_categories_percentage, if_pos h]
    · show (get_sentiment_analysis rows).sentiment_distribution = _
      simp only [get_sentiment_analysis]
      rw [if_pos h]
    · show (get_sentiment_analysis rows).emotion_distribution = _
      simp only [get_sentiment_analysis]
      rw [if_pos h]
      rfl
  · intro h
    obtain rfl : rows = [] := List.length_eq_zero.mp h
    refine ⟨rfl, rfl, rfl, rfl, ?_⟩
    show pyRound2 (total_virality []) = 0
    have h0 : pyRound (0 * 100 : ℚ) = 0 := by norm_num [pyRound]
    show pyRound2 0 = 0
    rw [pyRound2, h0]
    norm_num

/-- The witness row for C1: category `praise`, sentiment `positive`,
emotion `joy`. -/
def w1row : PostRow :=
  ⟨none, some "t", none, some "positive", some "joy", some "praise",
   some "3", some "0", some "0", some "0", none, none, none, none⟩

/-- Witness for C1: the amended theorem applied at a one-row list (both
implications hold, one vacuously) and at the empty list. -/
theorem C1_witness :
    (0 < ([w1row] : List PostRow).length)
    ∧ (get_post_categories_percentage [w1row]).dist =
        [("inquiry", pctStr (catCount [w1row] "inquiry") ([w1row] : List PostRow).length),
         ("suggestions", pctStr (catCount [w1row] "suggestion") ([w1row] : List PostRow).length),
         ("complaint", pctStr (catCount [w1row] "complaint") ([w1row] : List PostRow).length),
         ("praise", pctStr (catCount [w1row] "praise") ([w1row] : List PostRow).length),
         ("other", pctStr (catCount [w1row] "other") ([w1row] : List PostRow).length)]
    ∧ (([] : List PostRow).length = 0)
    ∧ (get_sentiment_analysis ([] : List PostRow)).sentiment_distribution = [] :=
  ⟨by decide, ((C1_distribution_aggregation [w1row]).2.2.2.1 (by decide)).1,
   by decide, ((C1_distribution_aggregation ([] : List PostRow)).2.2.2.2 (by decide)).2.1⟩

/-- Counterexample to C1 as stated: with N = 0 records fed to the
sentiment aggregation, the distributions are empty mappings, so no
label reports `"0%"`. -/
theorem C1_counterexample :
    (get_sentiment_analysis ([] : List PostRow)).sentiment_distribution = []
    ∧ (get_sentiment_analysis ([] : List PostRow)).sentiment_distribution.lookup "positive" ≠
        some "0%"
    ∧ (get_sentiment_analysis ([] : List PostRow)).emotion_distribution.lookup "neutral" ≠
        some "0%" :=
  ⟨rfl, by decide, by decide⟩

/-- **C5** (confirmed).  The action-item merger ranks posts and
comments independently, truncates posts to `posts_limit` and comments
to `comments_limit` (default 10 each), and concatenates
posts-then-comments, so every post precedes every comment in the output
regardless of score. -/
theorem C5_two_bucket_merge (posts : List PostRow) (comments : List CommentRow)
    (pl cl : Int) (hpl : 0 ≤ pl) (hcl : 0 ≤ cl) :
    get_action_items posts comments pl cl =
      (sortPosts (posts.map mkPostItem)).take pl.toNat
        ++ (sortComments (comments.map mkCommentItem)).take cl.toNat
    ∧ ((sortPosts (posts.map mkPostItem)).take pl.toNat).length ≤ pl.toNat
    ∧ ((sortComments (comments.map mkCommentItem)).take cl.toNat).length ≤ cl.toNat
    ∧ (∀ a ∈ (sortPosts (posts.map mkPostItem)).take pl.toNat, a.type = "post")
    ∧ (∀ b ∈ (sortComments (comments.map mkCommentItem)).take cl.toNat, b.type = "comment")
    ∧ List.Sorted postRel ((sortPosts (posts.map mkPostItem)).take pl.toNat)
    ∧ List.Sorted commentRel ((sortComments (comments.map mkCommentItem)).take cl.toNat)
    ∧ (∀ i j : Fin (get_action_items posts comments pl cl).length,
        ((get_action_items posts comments pl cl).get i).type = "post" →
        ((get_action_items posts comments pl cl).get j).type = "comment" →
        (i : ℕ) < (j : ℕ))
    ∧ get_action_items_default posts comments = get_action_items posts comments 10 10 := by
  have hA : pySliceTo (sortPosts (posts.map mkPostItem)) pl =
      (sortPosts (posts.map mkPostItem)).take pl.toNat := by
    rw [pySliceTo, if_pos hpl]
  have hB : pySliceTo (sortComments (comments.map mkCommentItem)) cl =
      (sortComments (comments.map mkCommentItem)).take cl.toNat := by
    rw [pySliceTo, if_pos hcl]
  have heq : get_action_items posts comments pl cl =
      (sortPosts (posts.map mkPostItem)).take pl.toNat
        ++ (sortComments (comments.map mkCommentItem)).take cl.toNat := by
    rw [get_action_items, hA, hB]
  have hmemA : ∀ a ∈ (sortPosts (posts.map mkPostItem)).take pl.toNat, a.type = "post" := by
    intro a ha
    have h1 : a ∈ sortPosts (posts.map mkPostItem) := List.mem_of_mem_take ha
    have h2 : a ∈ posts.map mkPostItem := (List.mem_insertionSort postRel).mp h1
    obtain ⟨r, _, rfl⟩ := List.mem_map.mp h2
    rfl
  have hmemB : ∀ b ∈ (sortComments (comments.map mkCommentItem)).take cl.toNat,
      b.type = "comment" := by
    intro b hb
    have h1 : b ∈ sortComments (comments.map mkCommentItem) := List.mem_of_mem_take hb
    have h2 : b ∈ comments.map mkCommentItem := (List.mem_insertionSort commentRel).mp h1
    obtain ⟨r, _, rfl⟩ := List.mem_map.mp h2
    rfl
  refine ⟨heq, List.length_take_le _ _, List.length_take_le _ _, hmemA, hmemB,
    List.Pairwise.sublist (List.take_sublist _ _) (List.sorted_insertionSort postRel _),
    List.Pairwise.sublist (List.take_sublist _ _) (List.sorted_insertionSort commentRel _),
    ?_, rfl⟩
  intro i j hi hj
  set A := (sortPosts (posts.map mkPostItem)).take pl.toNat with hAdef
  set B := (sortComments (comments.map mkCommentItem)).take cl.toNat with hBdef
  have hlen : (get_action_items posts comments pl cl).length = A.length + B.length := by
    rw [heq, List.length_append]
  have hiA : (i : ℕ) < A.length := by
    by_contra hge
    push_neg at hge
    have hfix := List.get_of_eq heq i
    have hbound : (i : ℕ) < (A ++ B).length := by
      rw [List.length_append]
      have h1 := i.isLt
      omega
    rw [List.get_eq_getElem, List.get_eq_getElem, List.getElem_append_right hge] at hfix
    have hmem : (get_action_items posts comments pl cl).get i ∈ B := by
      rw [List.get_eq_getElem, hfix]
      exact List.getElem_mem _
    have := hmemB _ hmem
    rw [hi] at this
    exact absurd this (by decide)
  have hjB : A.length ≤ (j : ℕ) := by
    by_contra hlt
    push_neg at hlt
    have hfix := List.get_of_eq heq j
    rw [List.get_eq_getElem, List.get_eq_getElem, List.getElem_append_left hlt] at hfix
    have hmem : (get_action_items posts comments pl cl).get j ∈ A := by
      rw [List.get_eq_getElem, hfix]
      exact List.getElem_mem _
    have := hmemA _ hmem
    rw [hj] at this
    exact absurd this (by decide)
  omega

/-- Witness for C5 at one post row and one comment row with the default
limits. -/
theorem C5_witness :
    ((0 : Int) ≤ 10)
    ∧ get_action_items
        [⟨none, some "tp", none, none, none, none, some "1", some "0", some "0", some "0",
          none, none, none, none⟩]
        [⟨none, some "tc", none, some "7", some "2", none, none, none, none, some "999"⟩]
        10 10 =
      (sortPosts ([⟨none, some "tp", none, none, none, none, some "1", some "0", some "0",
          some "0", none, none, none, none⟩].map mkPostItem)).take (10 : Int).toNat
        ++ (sortComments ([⟨none, some "tc", none, some "7", some "2", none, none, none,
            none, some "999"⟩].map mkCommentItem)).take (10 : Int).toNat :=
  ⟨by decide,
   (C5_two_bucket_merge
      [⟨none, some "tp", none, none, none, none, some "1", some "0", some "0", some "0",
        none, none, none, none⟩]
      [⟨none, some "tc", none, some "7", some "2", none, none, none, none, some "999"⟩]
      10 10 (by decide) (by decide)).1⟩

/-- Length and emptiness of the combined page slices of
`get_full_data`, for a 0-indexed page number `n`. -/
theorem gfd_slices_len {α : Type _} (posts comments : List α) (n : Nat)
    (PS CS1 CS : List α)
    (hPS : PS = if n * 50 < posts.length then pySlice posts (n * 50) (n * 50 + 50) else [])
    (hCS1 : CS1 = if PS.length < 50 then
        (if n * 50 - posts.length < comments.length then
          pySlice comments (n * 50 - posts.length)
            ((n * 50 - posts.length) + (50 - PS.length))
        else [])
      else [])
    (hCS : CS = if PS.length = 0 then
        (if n * 50 - posts.length < comments.length then
          pySlice comments (n * 50 - posts.length) ((n * 50 - posts.length) + 50)
        else [])
      else CS1) :
    (PS ++ CS).length ≤ 50
    ∧ (PS ++ CS = [] ↔ posts.length + comments.length ≤ n * 50) := by
  rw [← List.length_eq_zero, List.length_append]
  have hPSlen : PS.length =
      if n * 50 < posts.length then min 50 (posts.length - n * 50) else 0 := by
    rw [hPS]
    split
    · simp only [pySlice, List.length_take, List.length_drop]
      omega
    · rfl
  have hCS1len : CS1.length =
      if PS.length < 50 then
        (if n * 50 - posts.length < comments.length then
          min (50 - PS.length) (comments.length - (n * 50 - posts.length))
        else 0)
      else 0 := by
    rw [hCS1]
    split
    · split
      · simp only [pySlice, List.length_take, List.length_drop]
        omega
      · rfl
    · rfl
  have hCSlen : CS.length =
      if PS.length = 0 then
        (if n * 50 - posts.length < comments.length then
          min 50 (comments.length - (n * 50 - posts.length))
        else 0)
      else CS1.length := by
    rw [hCS]
    split
    · split
      · simp only [pySlice, List.length_take, List.length_drop]
        omega
      · rfl
    · rfl
  split_ifs at hPSlen hCS1len hCSlen <;> omega

/-- **C7** (confirmed).  For every page `p ≥ 1` the combined full-data
endpoint succeeds (pages past the end are not an error), returns at
most `items_per_page = 50` items, echoes the requested page number and
the totals, and the item list is empty exactly when
`p > total_pages = ceil((posts_len + comments_len) / 50)`. -/
theorem C7_page_invariants {α : Type _} (posts comments : List α) (page : Int)
    (hpage : 1 ≤ page) :
    ∃ r : FullDataPage α, get_full_data posts comments page = Except.ok r
      ∧ r.items.length ≤ r.items_per_page
      ∧ (r.items = [] ↔ (r.total_pages : Int) < page)
      ∧ r.current_page = page
      ∧ r.items_per_page = 50
      ∧ r.total_pages = (posts.length + comments.length + 49) / 50
      ∧ r.total_posts = posts.length
      ∧ r.total_comments = comments.length := by
  have hnlt : ¬ page < 1 := not_lt.mpr hpage
  have hpn : (((page - 1).toNat : Int)) = page - 1 := Int.toNat_of_nonneg (by omega)
  have hmain : get_full_data posts comments page = Except.ok
      ⟨(if (page - 1).toNat * 50 < posts.length then
          pySlice posts ((page - 1).toNat * 50) ((page - 1).toNat * 50 + 50) else [])
        ++ (if (if (page - 1).toNat * 50 < posts.length then
              pySlice posts ((page - 1).toNat * 50) ((page - 1).toNat * 50 + 50)
            else []).length = 0 then
            (if (page - 1).toNat * 50 - posts.length < comments.length then
              pySlice comments ((page - 1).toNat * 50 - posts.length)
                (((page - 1).toNat * 50 - posts.length) + 50)
            else [])
          else
            (if (if (page - 1).toNat * 50 < posts.length then
                  pySlice posts ((page - 1).toNat * 50) ((page - 1).toNat * 50 + 50)
                else []).length < 50 then
              (if (page - 1).toNat * 50 - posts.length < comments.length then
                pySlice comments ((page - 1).toNat * 50 - posts.length)
                  (((page - 1).toNat * 50 - posts.length) +
                    (50 - (if (page - 1).toNat * 50 < posts.length then
                        pySlice posts ((page - 1).toNat * 50) ((page - 1).toNat * 50 + 50)
                      else []).length))
              else [])
            else [])),
       page, (posts.length + comments.length + 50 - 1) / 50,
       (posts.length + comments.length + 50 - 1) / 50, 50,
       posts.length, comments.length⟩ := by
    rw [get_full_data, if_neg hnlt]
  obtain ⟨hlen, hempty⟩ := gfd_slices_len posts comments (page - 1).toNat _ _ _ rfl rfl rfl
  refine ⟨_, hmain, ?_, ?_, rfl, rfl, ?_, rfl, rfl⟩
  · exact hlen
  · dsimp only
    rw [hempty]
    omega
  · dsimp only
    omega

/-- Witness for C7 at a small concrete instance: 60 posts, 10 comments,
page 2. -/
theorem C7_witness :
    (1 ≤ (2 : Int))
    ∧ (∃ r : FullDataPage Nat,
        get_full_data (List.range 60) (List.range 10) 2 = Except.ok r
        ∧ r.items.length ≤ r.items_per_page
        ∧ (r.items = [] ↔ (r.total_pages : Int) < 2)
        ∧ r.current_page = 2
        ∧ r.items_per_page = 50
        ∧ r.total_pages = ((List.range 60).length + (List.range 10).length + 49) / 50
        ∧ r.total_posts = (List.range 60).length
        ∧ r.total_comments = (List.range 10).length) :=
  ⟨by decide, C7_page_invariants (List.range 60) (List.range 10) 2 (by decide)⟩

/-- **C3** (corrected).  In the sorted comment list, within a run of
equal virality scores the parsed timestamps are descending (the later
instant sorts first), and a comment with a missing or unparseable
timestamp can only precede a comment with a parsed timestamp `t` when
`t ≤ 0` — that is, it never sorts ahead of a valid POST-epoch
timestamp, but it does sort ahead of valid pre-epoch timestamps,
because the fallback sort key 0 coincides with the epoch. -/
theorem C3_comment_tiebreak (l : List ActionItem) (i j : Fin (sortComments l).length)
    (hij : (i : ℕ) < (j : ℕ))
    (hscore : ((sortComments l).get i).virality_score =
      ((sortComments l).get j).virality_score) :
    (∀ t1 t2 : Int, parsedTs? ((sortComments l).get i) = some t1 →
        parsedTs? ((sortComments l).get j) = some t2 → t2 ≤ t1)
    ∧ (parsedTs? ((sortComments l).get i) = none →
        ∀ t : Int, parsedTs? ((sortComments l).get j) = some t → t ≤ 0) := by
  have hs : List.Sorted commentRel (sortComments l) :=
    List.sorted_insertionSort commentRel l
  have hrel : commentRel ((sortComments l).get i) ((sortComments l).get j) :=
    List.pairwise_iff_get.mp hs i j hij
  set a := (sortComments l).get i with ha
  set b := (sortComments l).get j with hb
  have hfst : (comment_sort_key a).1 = (comment_sort_key b).1 := by
    cases hpa : parsedTs? a <;> cases hpb : parsedTs? b <;>
      simp [comment_sort_key, hpa, hpb, hscore]
  have hsnd : (comment_sort_key a).2 ≤ (comment_sort_key b).2 := by
    rcases hrel with hlt | ⟨_, hle⟩
    · rw [hfst] at hlt
      exact absurd hlt (lt_irrefl _)
    · exact hle
  constructor
  · intro t1 t2 h1 h2
    have hka : (comment_sort_key a).2 = -((t1 : Int) : ℚ) := by
      simp [comment_sort_key, h1]
    have hkb : (comment_sort_key b).2 = -((t2 : Int) : ℚ) := by
      simp [comment_sort_key, h2]
    rw [hka, hkb] at hsnd
    exact_mod_cast neg_le_neg_iff.mp hsnd
  · intro hnone t h2
    have hka : (comment_sort_key a).2 = 0 := by
      simp [comment_sort_key, hnone]
    have hkb : (comment_sort_key b).2 = -((t : Int) : ℚ) := by
      simp [comment_sort_key, h2]
    rw [hka, hkb] at hsnd
    have ht : ((t : Int) : ℚ) ≤ 0 := by linarith
    exact_mod_cast ht

/-- Two comments with equal scores and valid timestamps one day apart
(2024-01-01 and 2024-01-02, UTC). -/
def c3early : ActionItem :=
  ⟨"comment", "", "e", "", "", "", "", 5, 0, 0, 0, "", "", "", "", "",
   "2024-01-01T00:00:00+00:00"⟩

def c3late : ActionItem :=
  ⟨"comment", "", "l", "", "", "", "", 5, 0, 0, 0, "", "", "", "", "",
   "2024-01-02T00:00:00+00:00"⟩

/-- Witness for C3: sorting the two tied comments puts the later
timestamp first, and the theorem yields the timestamp inequality. -/
theorem C3_witness :
    ((0 : ℕ) < (1 : ℕ))
    ∧ ((sortComments [c3early, c3late]).get ⟨0, by decide⟩).virality_score =
        ((sortComments [c3early, c3late]).get ⟨1, by decide⟩).virality_score
    ∧ parsedTs? ((sortComments [c3early, c3late]).get ⟨0, by decide⟩) = some 1704153600
    ∧ parsedTs? ((sortComments [c3early, c3late]).get ⟨1, by decide⟩) = some 1704067200
    ∧ (1704067200 : Int) ≤ 1704153600 :=
  ⟨by decide, by decide, by decide, by decide,
   (C3_comment_tiebreak [c3early, c3late] ⟨0, by decide⟩ ⟨1, by decide⟩
      (by decide) (by decide)).1 1704153600 1704067200 (by decide) (by decide)⟩

/-- A tied pair: one comment with no timestamp, one with the valid
pre-epoch timestamp 1969-12-31 (epoch seconds −86400). -/
def c3missing : ActionItem :=
  ⟨"comment", "", "m", "", "", "", "", 5, 0, 0, 0, "", "", "", "", "", ""⟩

def c3pre : ActionItem :=
  ⟨"comment", "", "p", "", "", "", "", 5, 0, 0, 0, "", "", "", "", "",
   "1969-12-31T00:00:00+00:00"⟩

/-- Counterexample to C3 as stated: at equal scores, the comment with
the missing timestamp sorts AHEAD of the comment whose timestamp
validly parses (to a pre-epoch instant), because the missing-timestamp
fallback key 0 exceeds the negated positive key of a pre-epoch
timestamp. -/
theorem C3_counterexample :
    sortComments [c3pre, c3missing] = [c3missing, c3pre]
    ∧ parsedTs? c3missing = none
    ∧ parsedTs? c3pre = some (-86400)
    ∧ c3missing.virality_score = c3pre.virality_score :=
  ⟨by decide, rfl, by decide, rfl⟩

end PrimeBank
